import Mathlib

/-!
Verification of the fraud-detection dashboard front end
(`src/app.js` and the chart-setup module).

The JavaScript source is shallowly embedded: DOM mutation becomes explicit
state passing, network calls become `Except`-valued fetch outcomes supplied
as parameters, and JavaScript values that the code inspects dynamically
(truthiness tests, strict equality against the number `1`) are modelled by
an explicit `JSVal` type.  JSON numbers are modelled as `Int` (fractional
formatting such as `toFixed` / `toLocaleString` grouping is abstracted to
decimal `repr`, and is never load-bearing for any property proved here).
-/

namespace FraudDash

/-- Dynamically-typed JavaScript values, as far as `app.js` inspects them:
it tests truthiness (`tx.is_fraud ? ... : ...`, `tx.id || ...`) and strict
equality with the number `1` (`tx.is_fraud === 1`). -/
inductive JSVal where
  | undef : JSVal
  | null : JSVal
  | bool (b : Bool) : JSVal
  | num (n : Int) : JSVal
  | str (s : String) : JSVal
deriving DecidableEq, Repr

/-- JavaScript truthiness: `undefined`, `null`, `false`, `0` and `""` are
falsy; everything else this model can denote is truthy. -/
def JSVal.truthy : JSVal → Bool
  | .undef => false
  | .null => false
  | .bool b => b
  | .num n => n != 0
  | .str s => s != ""

/-- Strict equality with the number literal `1` (`x === 1`): no coercion,
so only the number `1` passes. -/
def JSVal.strictEqOne : JSVal → Bool
  | .num n => n == 1
  | _ => false

/-- Rendering of a `JSVal` inside a template literal (`${x}`).  String
conversion of numbers is decimal `repr`. -/
def JSVal.display : JSVal → String
  | .undef => "undefined"
  | .null => "null"
  | .bool b => if b then "true" else "false"
  | .num n => toString n
  | .str s => s

/-- Evaluation of `a || b` on `JSVal`s: the first operand when truthy, otherwise the
second. -/
def jsOr (a b : JSVal) : JSVal := if a.truthy then a else b

/-- Model of `formatNumber(num)` from `app.js`:
`return num ? num.toLocaleString() : '0';` — a falsy argument (missing
field, `0`, …) renders as `"0"`; locale digit grouping is abstracted to
decimal `repr`. -/
def formatNumber : JSVal → String
  | v => if v.truthy then v.display else "0"

/-- A transaction record as received from `/api/transactions` (read-only
from this system's perspective).  Fields the renderers access. -/
structure Transaction where
  id : JSVal
  transaction_id : JSVal
  timestamp : JSVal
  amount : JSVal
  transaction_type : JSVal
  location : JSVal
  is_fraud : JSVal
  fraud_probability : JSVal
deriving DecidableEq, Repr

/-- One rendered `<tr>` of a transaction table, with the cell texts the
template literal produces.  The probability cell keeps the raw
`fraud_probability` value (`((p || 0) * 100).toFixed(1)` is
floating-point formatting, abstracted away; no claim depends on it). -/
structure TxRow where
  idCell : String
  timestampCell : String
  amountCell : String
  typeCell : String
  locationCell : String
  statusBadge : String
  probRaw : JSVal
deriving DecidableEq, Repr

/-- The row template shared by `updateRecentTransactions`,
`loadTransactions` and the search handler in `app.js`. -/
def txRow (tx : Transaction) : TxRow :=
  { idCell := "#" ++ (jsOr (jsOr tx.id tx.transaction_id) (.str "-")).display
    timestampCell := (jsOr tx.timestamp (.str "-")).display
    amountCell := "$" ++ formatNumber tx.amount
    typeCell := (jsOr tx.transaction_type (.str "-")).display
    locationCell := (jsOr tx.location (.str "-")).display
    statusBadge := if tx.is_fraud.truthy then "Fraud" else "Legit"
    probRaw := tx.fraud_probability }

/-- The contents written into a transaction table body: either a single
empty-state row, or one `TxRow` per record. -/
inductive TableBody where
  | emptyState (msg : String) : TableBody
  | rows (l : List TxRow) : TableBody
deriving DecidableEq, Repr

/-- Number of `<tr>` elements a `TableBody` contains (the empty-state
message is itself one row). -/
def TableBody.rowCount : TableBody → Nat
  | .emptyState _ => 1
  | .rows l => l.length

/-- Model of `updateRecentTransactions(txs)` from `app.js`, as the pure function
from the list to the table body it assigns to
`recent-transactions-body` (`if (!txs || txs.length === 0)` renders the
empty-state row; a missing `tbody` target, which skips rendering, is not
modelled since the claims are about the produced fragment). -/
def updateRecentTransactions (txs : List Transaction) : TableBody :=
  if txs.length = 0 then .emptyState "No recent transactions"
  else .rows (txs.map txRow)

/-- The all-transactions table body built inside `loadTransactions` for
`all-transactions-body` (same row template plus a View button column,
which adds no row). -/
def allTransactionsBody (txs : List Transaction) : TableBody :=
  if txs.length = 0 then .emptyState "No transactions found."
  else .rows (txs.map txRow)

/-- One alert card produced by `loadAlerts` for a fraud-flagged
transaction. -/
structure AlertCard where
  title : String
  message : String
  time : String
deriving DecidableEq, Repr

def alertCard (tx : Transaction) : AlertCard :=
  { title := "Fraud Detected - Transaction #" ++ (jsOr tx.id tx.transaction_id).display
    message := "Amount: $" ++ formatNumber tx.amount ++ " | Location: " ++
      tx.location.display ++ " | Type: " ++ tx.transaction_type.display
    time := (jsOr tx.timestamp (.str "Just now")).display }

/-- What `loadAlerts` writes into `alerts-list`: the single "No Fraud
Detected" card (its wall-clock timestamp is outside the model), a list of
fraud alert cards, or the error card from the `.catch` handler. -/
inductive AlertsView where
  | noFraud : AlertsView
  | cards (l : List AlertCard) : AlertsView
  | loadError : AlertsView
deriving DecidableEq, Repr

/-- Number of alert cards an `AlertsView` displays. -/
def AlertsView.cardCount : AlertsView → Nat
  | .noFraud => 1
  | .cards l => l.length
  | .loadError => 1

/-- The fraud filter of `loadAlerts`,
`txs.filter(tx => tx.is_fraud === 1)` — strict equality with the number
`1`. -/
def fraudTxs (txs : List Transaction) : List Transaction :=
  txs.filter (fun tx => tx.is_fraud.strictEqOne)

/-- The pure core of `loadAlerts` on a successfully fetched page: the
badge text (`alertBadge.textContent = fraudTxs.length`) and the list
contents (`fraudTxs.slice(0, 10)` cards, or the no-fraud card). -/
def loadAlertsRender (txs : List Transaction) : String × AlertsView :=
  let f := fraudTxs txs
  (toString f.length,
    if f.length = 0 then .noFraud else .cards ((f.take 10).map alertCard))

/-! ## Chart registry and `updateChart` -/

/-- The mutable data of one live chart widget, as `updateChart` touches
it: `chart.data.labels` and `chart.data.datasets[0].data`. -/
structure ChartData where
  labels : List String
  series0 : List Int
deriving DecidableEq, Repr

/-- Property lookup on a JavaScript object modelled as an association
list: the first binding of the key wins. -/
def lookupA {α : Type} : List (String × α) → String → Option α
  | [], _ => none
  | (k, v) :: rest, n => if k = n then some v else lookupA rest n

/-- Property assignment `obj[n] = v` for a key already present: every
binding of `n` is overwritten in place. -/
def setA {α : Type} (s : List (String × α)) (n : String) (v : α) : List (String × α) :=
  s.map (fun p => if p.1 = n then (n, v) else p)

/-- The registry `window.charts`: a map from chart name to live widget data (an
association list; names are unique because the registry is an object). -/
def Registry := List (String × ChartData)

instance : DecidableEq Registry := by unfold Registry; exact inferInstance
instance : Repr Registry := by unfold Registry; exact inferInstance

def Registry.lookup (r : Registry) (name : String) : Option ChartData :=
  lookupA r name

/-- Replace the entry under `name` (which is present) with `cd`. -/
def Registry.set (r : Registry) (name : String) (cd : ChartData) : Registry :=
  setA r name cd

/-- The `data` argument of `updateChart(name, data)`: either a nullish
value (`null`/`undefined`, on which any property access throws), or an
object whose `labels` / `data` fields may each be absent. -/
inductive UpdateArg where
  | nullish : UpdateArg
  | obj (labels : Option (List String)) (dat : Option (List Int)) : UpdateArg
deriving DecidableEq, Repr

/-- The observable outcome of one `updateChart` call. -/
structure UpdateResult where
  /-- state of `window.charts` afterwards (`none` models `window.charts` itself
  being absent). -/
  charts : Option Registry
  /-- whether `chart.update()` (the redraw) ran -/
  redraw : Bool
  /-- whether the `console.warn` "Chart '…' not found" branch ran -/
  warned : Bool
deriving DecidableEq, Repr

/-- Model of `updateChart(name, data)` from `app.js`.  Faithful control flow:
 * `window.charts` missing or without an entry for `name` → warn, no-op;
 * otherwise evaluate `data.labels && data.data`: on a nullish `data`
   this property access throws a `TypeError` (modelled as `.error`);
 * with both fields present, replace labels and the first series and
   redraw; with either field absent, silently do nothing. -/
def updateChart (wcharts : Option Registry) (name : String) (data : UpdateArg) :
    Except String UpdateResult :=
  match wcharts with
  | none => .ok { charts := none, redraw := false, warned := true }
  | some reg =>
    match reg.lookup name with
    | none => .ok { charts := some reg, redraw := false, warned := true }
    | some _ =>
      match data with
      | .nullish =>
        .error "TypeError: Cannot read properties of null (reading labels)"
      | .obj labels? dat? =>
        match labels?, dat? with
        | some ls, some ds =>
          .ok { charts := some (reg.set name { labels := ls, series0 := ds })
                redraw := true, warned := false }
        | _, _ => .ok { charts := some reg, redraw := false, warned := false }

/-! ## Dashboard state and the refresh phases -/

/-- aggregate payload of `GET /api/stats` (fields `loadDashboardData`
reads; `fraud_rate` arrives as a JSON value and is concatenated with
`'%'`). -/
structure Stats where
  total_transactions : JSVal
  fraudulent_transactions : JSVal
  legitimate_transactions : JSVal
  fraud_rate : JSVal
deriving DecidableEq, Repr

/-- The outcome of every backend request one full refresh performs.
Passing these as parameters models the asynchronous fetches: each
`Except` is the settled value of the corresponding promise. -/
structure FetchOutcomes where
  stats : Except String Stats
  chartFraudDist : Except String UpdateArg
  chartAmountDist : Except String UpdateArg
  chartTxType : Except String UpdateArg
  chartLocationRisk : Except String UpdateArg
  /-- outcome of `GET /api/transactions?page=1&per_page=50` (`loadTransactions`) -/
  transactions : Except String (List Transaction)
  /-- outcome of `GET /api/transactions?page=1&per_page=100` (`loadAlerts`) -/
  alertsTx : Except String (List Transaction)

/-- The DOM / registry state a full refresh mutates. -/
structure UIState where
  statTotal : String
  statFraud : String
  statLegit : String
  statRate : String
  charts : Option Registry
  recentBody : TableBody
  allBody : TableBody
  alertBadge : String
  alertsList : AlertsView
  /-- `console.error` messages, most recent first. -/
  log : List String
deriving DecidableEq

/-- Sequential application of the four `updateChart` calls inside
`loadChartData`'s `try` block: an exception thrown by one call skips the
remaining calls (it propagates to the `catch`), but updates already
applied stay applied.  Returns the resulting registry together with
whether one of the calls threw. -/
def applyChartUpdates : Option Registry → List (String × UpdateArg) → Option Registry × Bool
  | reg, [] => (reg, false)
  | reg, (n, d) :: rest =>
    match updateChart reg n d with
    | .ok res => applyChartUpdates res.charts rest
    | .error _ => (reg, true)

/-- The four named updates `loadChartData` pushes, in source order. -/
def chartUpdatesOf (fraudDist amountDist txType locationRisk : UpdateArg) :
    List (String × UpdateArg) :=
  [("fraudDistribution", fraudDist), ("amountDistribution", amountDist),
   ("transactionType", txType), ("locationRisk", locationRisk)]

/-- Model of `loadChartData()` from `app.js`.  The four chart fetches are issued
concurrently but joined with `Promise.all`: only when all four fulfil do
the `updateChart` calls run; if any fetch rejects, `Promise.all` rejects,
the `catch` logs, and no chart is updated.  The same `catch` also wraps
the `updateChart` calls themselves: when one of them throws (a nullish
payload on a mounted chart), the updates already applied stay applied,
the remaining calls are skipped, and the error is logged. -/
def loadChartData (o : FetchOutcomes) (st : UIState) : UIState :=
  match o.chartFraudDist, o.chartAmountDist, o.chartTxType, o.chartLocationRisk with
  | .ok fraudDist, .ok amountDist, .ok txType, .ok locationRisk =>
    let r := applyChartUpdates st.charts (chartUpdatesOf fraudDist amountDist txType locationRisk)
    { st with charts := r.1,
              log := if r.2 then "Chart loading error" :: st.log else st.log }
  | _, _, _, _ => { st with log := "Chart loading error" :: st.log }

/-- Model of `loadDashboardData()` from `app.js`: fetch `/api/stats`, write the
four stat cards, then run `loadChartData` (which never rejects, having
its own catch).  A failing stats fetch is caught before any card is
touched. -/
def loadDashboardData (o : FetchOutcomes) (st : UIState) : UIState :=
  match o.stats with
  | .error _ => { st with log := "Dashboard error" :: st.log }
  | .ok stats =>
    loadChartData o
      { st with
          statTotal := formatNumber stats.total_transactions
          statFraud := formatNumber stats.fraudulent_transactions
          statLegit := formatNumber stats.legitimate_transactions
          statRate := stats.fraud_rate.display ++ "%" }

/-- Model of `loadTransactions()` from `app.js`: on success renders the first 10
records into the recent table and the full page into the all-transactions
table; the `catch` logs and overwrites the all-transactions table with an
error row. -/
def loadTransactions (o : FetchOutcomes) (st : UIState) : UIState :=
  match o.transactions with
  | .ok txs =>
    { st with
        recentBody := updateRecentTransactions (txs.take 10)
        allBody := allTransactionsBody txs }
  | .error _ =>
    { st with
        log := "Error loading transactions:" :: st.log
        allBody := .emptyState "Error loading transactions." }

/-- Model of `loadAlerts()` from `app.js`: on success writes the badge and the
alert list; the `.catch` handler logs and replaces the list with an error
card, leaving the badge as it was. -/
def loadAlerts (o : FetchOutcomes) (st : UIState) : UIState :=
  match o.alertsTx with
  | .ok txs =>
    let r := loadAlertsRender txs
    { st with alertBadge := r.1, alertsList := r.2 }
  | .error _ =>
    { st with
        log := "Error loading alerts:" :: st.log
        alertsList := .loadError }

/-- Model of `refreshAllData()` from `app.js`: the three phases in strict
sequence.  Each phase catches its own failures, so the composite is a
total function — no exception propagates out. -/
def refreshAllData (o : FetchOutcomes) (st : UIState) : UIState :=
  loadAlerts o (loadTransactions o (loadDashboardData o st))

/-! ## `fetchAPI` -/

/-- Abstract parsed-JSON values returned by `res.json()`. -/
inductive JBody where
  | val (v : JSVal) : JBody
  | doc (fields : List (String × JSVal)) : JBody
deriving DecidableEq, Repr

/-- An HTTP response as `fetchAPI` inspects it: the `ok` flag (status in
the 2xx range), the status text, and the result of attempting to parse
the body as JSON (`none` when the body is not valid JSON, in which case
`res.json()` rejects). -/
structure HttpResponse where
  ok : Bool
  statusText : String
  json : Option JBody
deriving DecidableEq, Repr

/-- The settled outcome of the underlying `fetch`: a transport error
rejects the promise; otherwise a response arrives (of any status). -/
inductive FetchResult where
  | transportError (e : String) : FetchResult
  | response (r : HttpResponse) : FetchResult
deriving DecidableEq, Repr

/-- Model of `fetchAPI(url, method, data)` from `app.js`:
`if (!res.ok) throw new Error(res.statusText); return await res.json();`
A transport error propagates; a non-2xx response throws the status text;
a 2xx response returns the parsed body — and throws a `SyntaxError` when
the body is not valid JSON. -/
def fetchAPI (r : FetchResult) : Except String JBody :=
  match r with
  | .transportError e => .error e
  | .response res =>
    if !res.ok then .error res.statusText
    else
      match res.json with
      | some v => .ok v
      | none => .error "SyntaxError: Unexpected token in JSON"

/-! ## `analyzeTransaction` -/

/-- Verdict payload of `POST /api/analyze` as rendered by
`analyzeTransaction`. -/
structure Verdict where
  is_fraud : JSVal
  fraud_probability : JSVal
  risk_level : JSVal
  recommendation : JSVal
deriving DecidableEq, Repr

/-- The request body `analyzeTransaction` submits.  The source sends
`parseFloat(amt)`; floating-point parsing is abstracted by keeping the
raw field text (no claim depends on the parsed value). -/
structure AnalyzePayload where
  amountRaw : String
  transaction_type : String
  location : String
deriving DecidableEq, Repr

/-- The observable result of one `analyzeTransaction()` run. -/
inductive AnalyzeResult where
  /-- the `alert("Enter amount")` branch, then `return`: no network call. -/
  | blockedAlert : AnalyzeResult
  /-- successful POST: result panel unhidden, the four verdict fields
  rendered. -/
  | rendered (sent : AnalyzePayload) (prediction : String) (color : String)
      (probRaw : JSVal) (risk : String) (recommendation : String) : AnalyzeResult
  /-- the POST was made but failed: `alert("Analysis failed")`. -/
  | failedAlert (sent : AnalyzePayload) : AnalyzeResult
deriving DecidableEq, Repr

/-- Whether a network call was performed. -/
def AnalyzeResult.networkCalled : AnalyzeResult → Bool
  | .blockedAlert => false
  | .rendered _ _ _ _ _ _ => true
  | .failedAlert _ => true

/-- Model of `analyzeTransaction()` from `app.js`: reads the three form fields;
`if(!amt) { alert("Enter amount"); return; }` blocks on an empty amount
before any fetch; otherwise POSTs the fields and renders the verdict
(the probability cell keeps the raw value — `toFixed` float formatting
abstracted). -/
def analyzeTransaction (amt ty loc : String)
    (fetched : Except String Verdict) : AnalyzeResult :=
  if amt = "" then .blockedAlert
  else
    let payload : AnalyzePayload :=
      { amountRaw := amt, transaction_type := ty, location := loc }
    match fetched with
    | .ok res =>
      .rendered payload
        (if res.is_fraud.truthy then "FRAUD DETECTED" else "Legitimate")
        (if res.is_fraud.truthy then "#ef4444" else "#10b981")
        res.fraud_probability
        res.risk_level.display
        res.recommendation.display
    | .error _ => .failedAlert payload

/-! ## `handleRefresh` -/

/-- Response body of `POST /api/refresh`. -/
structure RefreshInfo where
  source : String
  count : Int
deriving DecidableEq, Repr

/-- Page-level state touched by `handleRefresh` beyond the dashboard
`UIState`: the header caption and the hidden-flag of the analysis result
panel. -/
structure PageState where
  ui : UIState
  header : String
  analysisHidden : Bool
deriving DecidableEq

/-- The header caption template of `handleRefresh` step 3. -/
def refreshCaption (info : RefreshInfo) : String :=
  "Source: " ++ info.source ++ " | Records: " ++ toString info.count

/-- Model of `handleRefresh()` from `app.js`, with the spinner animation (pure
presentation, async-timer based) outside the model.  Strict order inside
the `try`: (1) `POST /api/refresh`; (2) `refreshAllData()`; (3) header
caption update (guarded by element presence); (4) hide the analysis
result.  Only step 1 can reject — `refreshAllData` is total and steps 3–4
are null-guarded — and its failure is caught and logged, skipping steps
2–4 with nothing rolled back. -/
def handleRefresh (post : Except String RefreshInfo) (o : FetchOutcomes)
    (headerPresent : Bool) (st : PageState) : PageState :=
  match post with
  | .error _ => { st with ui := { st.ui with log := "Refresh failed:" :: st.ui.log } }
  | .ok info =>
    let st1 := { st with ui := refreshAllData o st.ui }
    let st2 := if headerPresent then { st1 with header := refreshCaption info } else st1
    { st2 with analysisHidden := true }

/-! ## Chart widget lifecycle (`initializeCharts`, `renderReport`, `closeReport`)

The charting library side: every `new Chart(...)` creates a live widget
instance (modelled by a fresh numeric id added to `live`), and
`instance.destroy()` removes it from `live`.  The registry slot of the
chart-setup module (`window.charts[name]`) and the module-level
`reportChart` variable hold ids of instances. -/

/-- Instance-tracking state for the widget lifecycle. -/
structure ChartSys where
  /-- the `window.charts` slots: name → id of the instance stored under it. -/
  slots : List (String × Nat)
  /-- the `reportChart` module variable (`null` ↦ `none`). -/
  reportChart : Option Nat
  /-- fresh id supply for `new Chart(...)`. -/
  nextId : Nat
  /-- ids of instances created and not (yet) destroyed. -/
  live : List Nat
deriving DecidableEq, Repr

/-- The operations the source performs on widget instances. -/
inductive ChartOp where
  /-- one `initXxxChart()` call: skip when the canvas is absent;
  otherwise destroy any instance already under the name, then construct
  and store a fresh one. -/
  | init (name : String) (canvasPresent : Bool) : ChartOp
  /-- a `renderReport` run (a `generateReport` whose fetch succeeded): destroy
  the previous report instance if any, then construct and store a fresh
  one. -/
  | render : ChartOp
  /-- a `generateReport` whose fetch failed: the error text is shown and
  no instance is created or destroyed. -/
  | renderFailed : ChartOp
  /-- a `closeReport()` run: destroy the report instance if any. -/
  | close : ChartOp
deriving DecidableEq, Repr

def ChartSys.destroyId (st : ChartSys) (id : Nat) : ChartSys :=
  { st with live := st.live.erase id }

/-- Store a fresh instance under `name` in `window.charts`. -/
def ChartSys.newInSlot (st : ChartSys) (name : String) : ChartSys :=
  { st with
      slots := if (lookupA st.slots name).isSome
        then setA st.slots name st.nextId
        else (name, st.nextId) :: st.slots
      nextId := st.nextId + 1
      live := st.nextId :: st.live }

def ChartSys.step (st : ChartSys) : ChartOp → ChartSys
  | .init name canvasPresent =>
    if canvasPresent then
      let st1 := match lookupA st.slots name with
        | some old => st.destroyId old
        | none => st
      st1.newInSlot name
    else st
  | .render =>
    let st1 := match st.reportChart with
      | some old => { st.destroyId old with reportChart := none }
      | none => st
    { st1 with
        reportChart := some st1.nextId
        nextId := st1.nextId + 1
        live := st1.nextId :: st1.live }
  | .renderFailed => st
  | .close =>
    match st.reportChart with
    | some old => { st.destroyId old with reportChart := none }
    | none => st

/-- Run a sequence of lifecycle operations. -/
def ChartSys.run (st : ChartSys) : List ChartOp → ChartSys
  | [] => st
  | op :: rest => (st.step op).run rest

/-- Proposition that some registry slot currently references `id`. -/
def ChartSys.slotRef (st : ChartSys) (id : Nat) : Prop :=
  ∃ n, lookupA st.slots n = some id

/-- Well-formedness of the lifecycle state: the live instances are
exactly those referenced by a registry slot or by `reportChart` (no
leaked instance), references are injective, and ids are below the fresh
supply. -/
def WF (st : ChartSys) : Prop :=
  (∀ id, id ∈ st.live ↔ (st.slotRef id ∨ st.reportChart = some id))
  ∧ st.live.Nodup
  ∧ (∀ n m id, lookupA st.slots n = some id → lookupA st.slots m = some id → n = m)
  ∧ (∀ id, st.reportChart = some id → ∀ n, lookupA st.slots n ≠ some id)
  ∧ (∀ id, id ∈ st.live → id < st.nextId)

/-- The page-load lifecycle state: no widget constructed yet. -/
def chartSysInit : ChartSys :=
  { slots := [], reportChart := none, nextId := 0, live := [] }

/-! ## Derived result projections and sample data -/

/-- Boolean discriminator for `Except` success. -/
def exceptOk {ε α : Type} : Except ε α → Bool
  | .ok _ => true
  | .error _ => false

/-- What the all-transactions table shows after `loadTransactions`, as a
function of that phase's own fetch outcome alone. -/
def allBodyOf : Except String (List Transaction) → TableBody
  | .ok txs => allTransactionsBody txs
  | .error _ => .emptyState "Error loading transactions."

/-- What the alerts list shows after `loadAlerts`, as a function of that
phase's own fetch outcome alone. -/
def alertsViewOf : Except String (List Transaction) → AlertsView
  | .ok txs => (loadAlertsRender txs).2
  | .error _ => .loadError

/-- The four-slot registry exactly as the chart-setup module creates it
(initial labels and data of each widget). -/
def chartsInit : Registry :=
  [("fraudDistribution", { labels := ["Legitimate", "Fraudulent"], series0 := [0, 0] }),
   ("amountDistribution", { labels := [], series0 := [] }),
   ("transactionType", { labels := [], series0 := [] }),
   ("locationRisk", { labels := [], series0 := [] })]

/-- A concrete transaction record used in witnesses. -/
def sampleTx (fraud : Bool) (i : Int) : Transaction :=
  { id := .num i, transaction_id := .undef, timestamp := .str "2024-01-01 10:00",
    amount := .num 250, transaction_type := .str "transfer",
    location := .str "New York", is_fraud := if fraud then .num 1 else .num 0,
    fraud_probability := .num 0 }

/-- A list of 15 concrete transactions, the first 12 fraud-flagged. -/
def sampleTxs : List Transaction :=
  (List.range 15).map (fun i => sampleTx (decide (i < 12)) (Int.ofNat i))

/-- A concrete dashboard state used in witnesses and counterexamples. -/
def blankUI : UIState :=
  { statTotal := "0", statFraud := "0", statLegit := "0", statRate := "0%",
    charts := some chartsInit,
    recentBody := .emptyState "No recent transactions",
    allBody := .emptyState "No transactions found.",
    alertBadge := "", alertsList := .noFraud, log := [] }

/-- Concrete stats payload used in witnesses. -/
def sampleStats : Stats :=
  { total_transactions := .num 1000, fraudulent_transactions := .num 40,
    legitimate_transactions := .num 960, fraud_rate := .num 4 }

/-- Fetch outcomes in which every request succeeds, used in witnesses. -/
def allOkOutcomes : FetchOutcomes :=
  { stats := .ok sampleStats
    chartFraudDist := .ok (.obj (some ["Legitimate", "Fraudulent"]) (some [960, 40]))
    chartAmountDist := .ok (.obj (some ["0-100", "100+"]) (some [700, 300]))
    chartTxType := .ok (.obj (some ["transfer", "payment"]) (some [30, 10]))
    chartLocationRisk := .ok (.obj (some ["NY", "LA"]) (some [25, 15]))
    transactions := .ok sampleTxs
    alertsTx := .ok sampleTxs }

/-- A transaction whose fraud flag is the boolean `true` rather than the
number `1` (truthy, but not strictly equal to `1`). -/
def boolFraudTx : Transaction :=
  { sampleTx true 7 with is_fraud := .bool true }

/-- Fetch outcomes in which only the fraud-distribution chart fetch
fails. -/
def c2Outcomes : FetchOutcomes :=
  { allOkOutcomes with chartFraudDist := .error "Internal Server Error" }

/-- Fetch outcomes in which only the `/api/stats` fetch fails. -/
def statsFailOutcomes : FetchOutcomes :=
  { allOkOutcomes with stats := .error "Internal Server Error" }

/-- A concrete page state used in witnesses. -/
def pageInit : PageState :=
  { ui := blankUI, header := "Real-time fraud monitoring", analysisHidden := false }

/-! ## Helper lemmas -/

theorem lookupA_setA {α : Type} (s : List (String × α)) (n : String) (v : α) (m : String) :
    lookupA (setA s n v) m =
      if m = n then (lookupA s n).map (fun _ => v) else lookupA s m := by
  induction s with
  | nil => simp [lookupA, setA]
  | cons p t ih =>
    obtain ⟨k, w⟩ := p
    by_cases hk : k = n
    · subst hk
      have hs : setA ((k, w) :: t) k v = (k, v) :: setA t k v := by
        simp [setA]
      rw [hs]
      by_cases hm : m = k
      · subst hm
        simp [lookupA]
      · have hkm : ¬ k = m := fun h => hm h.symm
        simp only [lookupA, if_neg hkm, ih, if_neg hm]
    · have hs : setA ((k, w) :: t) n v = (k, w) :: setA t n v := by
        simp [setA, hk]
      rw [hs]
      by_cases hm : m = n
      · subst hm
        simp only [lookupA, if_neg hk, ih, if_pos rfl]
      · simp only [lookupA, ih, if_neg hm]

theorem Registry.lookup_set (r : Registry) (name : String) (c cd : ChartData)
    (h : r.lookup name = some c) : (r.set name cd).lookup name = some cd := by
  unfold Registry.lookup Registry.set at *
  rw [lookupA_setA]
  simp [h]

/-! ## Claims -/

/-- Claim C1 (counterexample): the claim "for every input, including data
that is null or undefined, the call never throws" is false at a concrete
input: with `fraudDistribution` mounted (the registry exactly as the
chart-setup module builds it) and `data = null`, `updateChart` evaluates
`data.labels` and throws a `TypeError` instead of degrading to a
warning. -/
theorem updateChart_null_throws :
    updateChart (some chartsInit) "fraudDistribution" .nullish =
        .error "TypeError: Cannot read properties of null (reading labels)"
      ∧ (chartsInit.lookup "fraudDistribution").isSome = true := by
  constructor
  · rfl
  · decide

/-- Claim C1 (amended): `updateChart(name, data)` on an unmounted name (or
with `window.charts` absent) is a no-op with a logged warning for every
data argument, never throwing; on a mounted name it never throws for any
*object* data — replacing the labels and first series and redrawing when
both `labels` and `data` fields are present, and silently doing nothing
when either is missing — but with `data` null or undefined on a mounted
name the property access `data.labels` throws. -/
theorem updateChart_behavior (wc : Option Registry) (name : String) (d : UpdateArg)
    (labels : List String) (dat : List Int)
    (ls? : Option (List String)) (ds? : Option (List Int)) :
    (updateChart none name d = .ok { charts := none, redraw := false, warned := true })
  ∧ (∀ r, wc = some r → r.lookup name = none →
      updateChart wc name d = .ok { charts := some r, redraw := false, warned := true })
  ∧ (∀ r c, wc = some r → r.lookup name = some c →
      ∃ r2, updateChart wc name (.obj (some labels) (some dat)) =
          .ok { charts := some r2, redraw := true, warned := false }
        ∧ r2.lookup name = some { labels := labels, series0 := dat })
  ∧ (∀ r c, wc = some r → r.lookup name = some c → (ls?.isNone ∨ ds?.isNone) →
      updateChart wc name (.obj ls? ds?) =
        .ok { charts := some r, redraw := false, warned := false })
  ∧ (∀ r c, wc = some r → r.lookup name = some c →
      exceptOk (updateChart wc name (.obj ls? ds?)) = true)
  ∧ (∀ r c, wc = some r → r.lookup name = some c →
      exceptOk (updateChart wc name .nullish) = false) := by
  refine ⟨rfl, ?_, ?_, ?_, ?_, ?_⟩
  · rintro r rfl hn
    simp [updateChart, hn]
  · rintro r c rfl hc
    refine ⟨r.set name { labels := labels, series0 := dat }, ?_, ?_⟩
    · simp [updateChart, hc]
    · exact Registry.lookup_set r name c _ hc
  · rintro r c rfl hc hnone
    rcases hnone with h | h <;> cases ls? <;> cases ds? <;>
      simp_all [updateChart, hc]
  · rintro r c rfl hc
    cases ls? <;> cases ds? <;> simp [updateChart, hc, exceptOk]
  · rintro r c rfl hc
    simp [updateChart, hc, exceptOk]

/-- Claim C1 (witness): the amended theorem applied at concrete inputs —
updating the mounted `amountDistribution` chart replaces its labels and
first series and redraws. -/
theorem updateChart_behavior_witness :
    ∃ r2, updateChart (some chartsInit) "amountDistribution"
          (.obj (some ["0-100", "100+"]) (some [700, 300])) =
        .ok { charts := some r2, redraw := true, warned := false }
      ∧ r2.lookup "amountDistribution" = some { labels := ["0-100", "100+"], series0 := [700, 300] } :=
  (updateChart_behavior (some chartsInit) "amountDistribution" .nullish
      ["0-100", "100+"] [700, 300] none none).2.2.1
    chartsInit { labels := [], series0 := [] } rfl (by decide)

/-- Claim C6 (counterexample): the claim's "fails iff non-2xx or transport
error" is false at a concrete input: a 2xx response whose body is not
valid JSON makes `res.json()` reject, so `fetchAPI` throws even though
the response is 2xx and the transport succeeded. -/
theorem fetchAPI_ok_nonjson_throws :
    (HttpResponse.mk true "OK" none).ok = true
  ∧ fetchAPI (.response (HttpResponse.mk true "OK" none)) =
      .error "SyntaxError: Unexpected token in JSON" := ⟨rfl, rfl⟩

/-- Claim C6 (amended): `fetchAPI` fails iff the transport errors, the
response is non-2xx, or the 2xx body fails to parse as JSON; on a
non-2xx response the thrown error's message is the HTTP status text, and
on a 2xx response with a valid JSON body it returns the parsed body. -/
theorem fetchAPI_behavior (r : FetchResult) :
    (∀ e, r = .transportError e → fetchAPI r = .error e)
  ∧ (∀ res, r = .response res → res.ok = false → fetchAPI r = .error res.statusText)
  ∧ (∀ res b, r = .response res → res.ok = true → res.json = some b → fetchAPI r = .ok b)
  ∧ (∀ res, r = .response res → res.ok = true → res.json = none →
      exceptOk (fetchAPI r) = false)
  ∧ (exceptOk (fetchAPI r) = true ↔
      ∃ res b, r = .response res ∧ res.ok = true ∧ res.json = some b) := by
  refine ⟨?_, ?_, ?_, ?_, ?_⟩
  · rintro e rfl; rfl
  · rintro res rfl hok; simp [fetchAPI, hok]
  · rintro res b rfl hok hj; simp [fetchAPI, hok, hj]
  · rintro res rfl hok hj; simp [fetchAPI, hok, hj, exceptOk]
  · cases r with
    | transportError e => simp [fetchAPI, exceptOk]
    | response res =>
      cases hok : res.ok <;> cases hj : res.json <;>
        simp_all [fetchAPI, exceptOk]

/-- Claim C6 (witness): the amended theorem applied at a concrete non-2xx
response — the error carries the status text. -/
theorem fetchAPI_behavior_witness :
    fetchAPI (.response (HttpResponse.mk false "Internal Server Error" none)) =
      .error "Internal Server Error" :=
  (fetchAPI_behavior (.response (HttpResponse.mk false "Internal Server Error" none))).2.1
    (HttpResponse.mk false "Internal Server Error" none) rfl rfl

/-- Claim C7: on an empty fetched list each renderer produces exactly one
row holding its empty-state message; on a non-empty list each produces
exactly one row per record (the rendering being, by construction, a pure
function of the list). -/
theorem transaction_tables_render (txs : List Transaction) :
    (txs.length = 0 →
        updateRecentTransactions txs = .emptyState "No recent transactions"
      ∧ allTransactionsBody txs = .emptyState "No transactions found."
      ∧ (updateRecentTransactions txs).rowCount = 1
      ∧ (allTransactionsBody txs).rowCount = 1)
  ∧ (txs.length ≠ 0 →
        updateRecentTransactions txs = .rows (txs.map txRow)
      ∧ allTransactionsBody txs = .rows (txs.map txRow)
      ∧ (updateRecentTransactions txs).rowCount = txs.length
      ∧ (allTransactionsBody txs).rowCount = txs.length) := by
  constructor
  · intro h
    simp [updateRecentTransactions, allTransactionsBody, TableBody.rowCount, h]
  · intro h
    simp [updateRecentTransactions, allTransactionsBody, TableBody.rowCount, h]

/-- Claim C7 (witness): the theorem applied to the empty list and to a
concrete one-element list. -/
theorem transaction_tables_render_witness :
    updateRecentTransactions ([] : List Transaction) = .emptyState "No recent transactions"
  ∧ (allTransactionsBody [sampleTx true 1]).rowCount = 1 :=
  ⟨((transaction_tables_render []).1 rfl).1,
   ((transaction_tables_render [sampleTx true 1]).2 (by decide)).2.2.2⟩

/-- Claim C8: `analyzeTransaction` with an empty amount field performs no
network call and raises the blocking `alert("Enter amount")`; with a
non-empty amount the three form fields are submitted to `/api/analyze`
and, on success, the returned verdict fields are rendered. -/
theorem analyzeTransaction_behavior (amt ty loc : String)
    (fetched : Except String Verdict) :
    (amt = "" →
        analyzeTransaction amt ty loc fetched = .blockedAlert
      ∧ (analyzeTransaction amt ty loc fetched).networkCalled = false)
  ∧ (amt ≠ "" →
        (analyzeTransaction amt ty loc fetched).networkCalled = true
      ∧ (∀ v, fetched = .ok v →
          analyzeTransaction amt ty loc fetched =
            .rendered { amountRaw := amt, transaction_type := ty, location := loc }
              (if v.is_fraud.truthy then "FRAUD DETECTED" else "Legitimate")
              (if v.is_fraud.truthy then "#ef4444" else "#10b981")
              v.fraud_probability v.risk_level.display v.recommendation.display)) := by
  constructor
  · intro h
    simp [analyzeTransaction, h, AnalyzeResult.networkCalled]
  · intro h
    constructor
    · cases fetched <;> simp [analyzeTransaction, h, AnalyzeResult.networkCalled]
    · rintro v rfl
      simp [analyzeTransaction, h]

/-- Claim C8 (witness): the theorem applied at an empty amount (blocked, no
network call) and at a concrete filled form. -/
theorem analyzeTransaction_behavior_witness :
    (analyzeTransaction "" "transfer" "NY"
        (.ok (Verdict.mk (.bool true) (.num 1) (.str "HIGH") (.str "Block")))).networkCalled = false
  ∧ (analyzeTransaction "250" "transfer" "NY"
        (.ok (Verdict.mk (.bool true) (.num 1) (.str "HIGH") (.str "Block")))).networkCalled = true :=
  ⟨((analyzeTransaction_behavior "" "transfer" "NY"
      (.ok (Verdict.mk (.bool true) (.num 1) (.str "HIGH") (.str "Block")))).1 rfl).2,
   ((analyzeTransaction_behavior "250" "transfer" "NY"
      (.ok (Verdict.mk (.bool true) (.num 1) (.str "HIGH") (.str "Block")))).2 (by decide)).1⟩

/-- Claim C3: `loadAlerts` sets the badge to the uncapped count of
fraud-flagged transactions in the fetched page and renders
`min(count, 10)` alert cards when the count is positive, or the single
no-fraud card when it is zero; in particular, with 15 transactions of
which 12 are fraud-flagged, the badge shows "12" and exactly 10 cards
are rendered. -/
theorem loadAlerts_badge_and_cards (txs : List Transaction) (o : FetchOutcomes)
    (st : UIState) :
    (loadAlertsRender txs).1 = toString (fraudTxs txs).length
  ∧ ((fraudTxs txs).length = 0 → (loadAlertsRender txs).2 = .noFraud)
  ∧ (0 < (fraudTxs txs).length →
      (loadAlertsRender txs).2.cardCount = min (fraudTxs txs).length 10)
  ∧ (o.alertsTx = .ok txs →
        (loadAlerts o st).alertBadge = toString (fraudTxs txs).length
      ∧ (loadAlerts o st).alertsList = (loadAlertsRender txs).2)
  ∧ (txs.length = 15 → (fraudTxs txs).length = 12 →
      (loadAlertsRender txs).1 = "12" ∧ (loadAlertsRender txs).2.cardCount = 10) := by
  refine ⟨rfl, ?_, ?_, ?_, ?_⟩
  · intro h
    simp [loadAlertsRender, h]
  · intro h
    simp [loadAlertsRender, AlertsView.cardCount, Nat.pos_iff_ne_zero.mp h,
      List.length_take, Nat.min_comm]
  · intro h
    constructor
    · simp [loadAlerts, h]
      rfl
    · simp [loadAlerts, h]
  · intro _ h12
    constructor
    · show toString (fraudTxs txs).length = "12"
      rw [h12]
      rfl
    · simp [loadAlertsRender, h12, AlertsView.cardCount, List.length_take]

/-- Claim C3 (witness): the theorem applied to a concrete page of 15
records with 12 fraud flags. -/
theorem loadAlerts_badge_and_cards_witness :
    (loadAlertsRender sampleTxs).1 = "12" ∧ (loadAlertsRender sampleTxs).2.cardCount = 10 :=
  (loadAlerts_badge_and_cards sampleTxs allOkOutcomes blankUI).2.2.2.2
    (by decide) (by decide)

/-- Claim C9: `handleRefresh` performs, in order, the `POST /api/refresh`,
the full data refresh, the header caption update and the hiding of the
analysis result; a failure of the POST (the only step of the sequence
that can reject, the others being total) is caught and logged, the
subsequent steps do not run, and nothing is rolled back. -/
theorem handleRefresh_sequence (post : Except String RefreshInfo) (o : FetchOutcomes)
    (st : PageState) :
    (∀ e, post = .error e →
      handleRefresh post o true st =
        { st with ui := { st.ui with log := "Refresh failed:" :: st.ui.log } })
  ∧ (∀ info, post = .ok info →
      handleRefresh post o true st =
        { st with ui := refreshAllData o st.ui,
                  header := refreshCaption info,
                  analysisHidden := true }) := by
  constructor
  · rintro e rfl
    rfl
  · rintro info rfl
    rfl

/-- Claim C9 (witness): the theorem applied at a failing POST and at a
successful POST with a concrete source report. -/
theorem handleRefresh_sequence_witness :
    handleRefresh (.error "Network Error") allOkOutcomes true pageInit =
      { pageInit with ui := { pageInit.ui with log := "Refresh failed:" :: pageInit.ui.log } }
  ∧ (handleRefresh (.ok (RefreshInfo.mk "creditcard_2.csv" 500)) allOkOutcomes true
      pageInit).header = "Source: creditcard_2.csv | Records: 500" :=
  ⟨(handleRefresh_sequence (.error "Network Error") allOkOutcomes pageInit).1
      "Network Error" rfl,
   by
    rw [(handleRefresh_sequence (.ok (RefreshInfo.mk "creditcard_2.csv" 500))
      allOkOutcomes pageInit).2 (RefreshInfo.mk "creditcard_2.csv" 500) rfl]
    rfl⟩

/-- Claim C10: the alert path counts only `is_fraud === 1` (strict), while
the table renderers mark any truthy `is_fraud` as "Fraud": a transaction
whose fraud flag is truthy but not the number `1` is shown as Fraud in
the tables yet excluded from the fraud filter, the alert badge count and
the alert cards. -/
theorem truthy_fraud_divergence (tx : Transaction)
    (h1 : tx.is_fraud.truthy = true) (h2 : tx.is_fraud ≠ .num 1) :
    (txRow tx).statusBadge = "Fraud"
  ∧ tx.is_fraud.strictEqOne = false
  ∧ (∀ txs, fraudTxs (tx :: txs) = fraudTxs txs)
  ∧ (loadAlertsRender [tx]).1 = "0"
  ∧ (loadAlertsRender [tx]).2 = .noFraud := by
  have hs : tx.is_fraud.strictEqOne = false := by
    cases hv : tx.is_fraud
    case num n =>
      have hn : n ≠ 1 := fun hn1 => h2 (by rw [hv, hn1])
      simp [JSVal.strictEqOne, hn]
    all_goals simp [JSVal.strictEqOne]
  have hf : fraudTxs [tx] = [] := by
    simp [fraudTxs, hs]
  refine ⟨?_, hs, ?_, ?_, ?_⟩
  · simp [txRow, h1]
  · intro txs
    simp [fraudTxs, hs]
  · simp [loadAlertsRender, hf]
    rfl
  · simp [loadAlertsRender, hf]

/-- Claim C2 (counterexample): the claim "every chart whose fetch
succeeded still has its update applied" is false at a concrete input:
with all four charts mounted, the fraud-distribution fetch failing and
the other three succeeding, no chart is updated at all — the
amount-distribution fetch succeeded with fresh labels and data, yet the
widget keeps its initial empty arrays. -/
theorem loadChartData_allOrNothing_cex :
    exceptOk c2Outcomes.chartAmountDist = true
  ∧ (loadChartData c2Outcomes blankUI).charts = blankUI.charts
  ∧ ((loadChartData c2Outcomes blankUI).charts.bind
      (fun r => r.lookup "amountDistribution")) =
        some { labels := [], series0 := [] } := by
  refine ⟨rfl, ?_, ?_⟩ <;> decide

/-- Claim C2 (amended): within `loadDashboardData`, the four chart fetches
are issued concurrently but joined by `Promise.all`, so the chart
updates run only in outcomes where all four fetches succeed; in every
outcome where some fetch fails, the rejection is caught and logged and
no chart update is applied — including for charts whose own fetch
succeeded.  When all four fetches succeed, the updates are applied
sequentially in a fixed order, and if one `updateChart` call throws,
updates already applied stay applied, the remaining calls are skipped,
and the same catch logs the error. -/
theorem loadChartData_promiseAll (o : FetchOutcomes) (st : UIState) :
    (∀ a b c d, o.chartFraudDist = .ok a → o.chartAmountDist = .ok b →
        o.chartTxType = .ok c → o.chartLocationRisk = .ok d →
        (loadChartData o st).charts = (applyChartUpdates st.charts (chartUpdatesOf a b c d)).1
      ∧ (loadChartData o st).log =
          (if (applyChartUpdates st.charts (chartUpdatesOf a b c d)).2 then
            "Chart loading error" :: st.log else st.log))
  ∧ ((exceptOk o.chartFraudDist = false ∨ exceptOk o.chartAmountDist = false ∨
      exceptOk o.chartTxType = false ∨ exceptOk o.chartLocationRisk = false) →
        loadChartData o st = { st with log := "Chart loading error" :: st.log }) := by
  constructor
  · rintro a b c d h1 h2 h3 h4
    constructor <;> simp [loadChartData, h1, h2, h3, h4]
  · intro h
    cases h1 : o.chartFraudDist <;> cases h2 : o.chartAmountDist <;>
      cases h3 : o.chartTxType <;> cases h4 : o.chartLocationRisk <;>
      simp_all [loadChartData, exceptOk]

/-- Claim C2 (witness): the amended theorem applied at a concrete all-ok
outcome (where no update call throws, so nothing is logged) and at the
concrete one-failure outcome. -/
theorem loadChartData_promiseAll_witness :
    (loadChartData allOkOutcomes blankUI).charts =
      (applyChartUpdates blankUI.charts (chartUpdatesOf (.obj (some ["Legitimate", "Fraudulent"]) (some [960, 40])) (.obj (some ["0-100", "100+"]) (some [700, 300])) (.obj (some ["transfer", "payment"]) (some [30, 10])) (.obj (some ["NY", "LA"]) (some [25, 15])))).1
  ∧ loadChartData c2Outcomes blankUI =
      { blankUI with log := "Chart loading error" :: blankUI.log } :=
  ⟨((loadChartData_promiseAll allOkOutcomes blankUI).1 _ _ _ _ rfl rfl rfl rfl).1,
   (loadChartData_promiseAll c2Outcomes blankUI).2 (Or.inl rfl)⟩

/-! Field-preservation lemmas for the refresh phases (each phase only
writes its own targets). -/

theorem loadChartData_preserves (o : FetchOutcomes) (st : UIState) :
    (loadChartData o st).statTotal = st.statTotal
  ∧ (loadChartData o st).statFraud = st.statFraud
  ∧ (loadChartData o st).statLegit = st.statLegit
  ∧ (loadChartData o st).statRate = st.statRate
  ∧ (loadChartData o st).recentBody = st.recentBody
  ∧ (loadChartData o st).allBody = st.allBody
  ∧ (loadChartData o st).alertBadge = st.alertBadge
  ∧ (loadChartData o st).alertsList = st.alertsList := by
  cases h1 : o.chartFraudDist <;> cases h2 : o.chartAmountDist <;>
    cases h3 : o.chartTxType <;> cases h4 : o.chartLocationRisk <;>
    simp [loadChartData, h1, h2, h3, h4]

theorem loadDashboardData_preserves (o : FetchOutcomes) (st : UIState) :
    (loadDashboardData o st).recentBody = st.recentBody
  ∧ (loadDashboardData o st).allBody = st.allBody
  ∧ (loadDashboardData o st).alertBadge = st.alertBadge
  ∧ (loadDashboardData o st).alertsList = st.alertsList := by
  cases h : o.stats with
  | error e => simp [loadDashboardData, h]
  | ok s =>
    simp only [loadDashboardData, h]
    exact ⟨(loadChartData_preserves o _).2.2.2.2.1, (loadChartData_preserves o _).2.2.2.2.2.1,
      (loadChartData_preserves o _).2.2.2.2.2.2.1, (loadChartData_preserves o _).2.2.2.2.2.2.2⟩

theorem loadTransactions_preserves (o : FetchOutcomes) (st : UIState) :
    (loadTransactions o st).statTotal = st.statTotal
  ∧ (loadTransactions o st).statFraud = st.statFraud
  ∧ (loadTransactions o st).statLegit = st.statLegit
  ∧ (loadTransactions o st).statRate = st.statRate
  ∧ (loadTransactions o st).charts = st.charts
  ∧ (loadTransactions o st).alertBadge = st.alertBadge
  ∧ (loadTransactions o st).alertsList = st.alertsList := by
  cases h : o.transactions <;> simp [loadTransactions, h]

theorem loadAlerts_preserves (o : FetchOutcomes) (st : UIState) :
    (loadAlerts o st).statTotal = st.statTotal
  ∧ (loadAlerts o st).statFraud = st.statFraud
  ∧ (loadAlerts o st).statLegit = st.statLegit
  ∧ (loadAlerts o st).statRate = st.statRate
  ∧ (loadAlerts o st).charts = st.charts
  ∧ (loadAlerts o st).recentBody = st.recentBody
  ∧ (loadAlerts o st).allBody = st.allBody := by
  cases h : o.alertsTx <;> simp [loadAlerts, h]

/-- Claim C4: each phase of `refreshAllData` catches its own failure, so
the composite is a total function of the fetch outcomes (no exception
propagates); a failing `/api/stats` fetch is logged, leaves the four
stat card texts unchanged, and the transactions and alerts phases still
run — indeed each of those phases' visible output is determined by its
own fetch outcome alone, whatever happened to the other phases. -/
theorem refreshAllData_fault_tolerance (o : FetchOutcomes) (st : UIState) :
    (∀ e, o.stats = .error e →
        refreshAllData o st =
          loadAlerts o (loadTransactions o { st with log := "Dashboard error" :: st.log })
      ∧ (refreshAllData o st).statTotal = st.statTotal
      ∧ (refreshAllData o st).statFraud = st.statFraud
      ∧ (refreshAllData o st).statLegit = st.statLegit
      ∧ (refreshAllData o st).statRate = st.statRate)
  ∧ (refreshAllData o st).allBody = allBodyOf o.transactions
  ∧ (refreshAllData o st).alertsList = alertsViewOf o.alertsTx := by
  refine ⟨?_, ?_, ?_⟩
  · intro e h
    have hdash : loadDashboardData o st = { st with log := "Dashboard error" :: st.log } := by
      simp [loadDashboardData, h]
    have hcomp : refreshAllData o st =
        loadAlerts o (loadTransactions o { st with log := "Dashboard error" :: st.log }) := by
      rw [refreshAllData, hdash]
    refine ⟨hcomp, ?_, ?_, ?_, ?_⟩ <;> rw [hcomp]
    · rw [(loadAlerts_preserves o _).1, (loadTransactions_preserves o _).1]
    · rw [(loadAlerts_preserves o _).2.1, (loadTransactions_preserves o _).2.1]
    · rw [(loadAlerts_preserves o _).2.2.1, (loadTransactions_preserves o _).2.2.1]
    · rw [(loadAlerts_preserves o _).2.2.2.1, (loadTransactions_preserves o _).2.2.2.1]
  · rw [refreshAllData, (loadAlerts_preserves o _).2.2.2.2.2.2]
    cases h : o.transactions <;> simp [loadTransactions, allBodyOf, h, allTransactionsBody]
  · rw [refreshAllData]
    cases h : o.alertsTx <;> simp [loadAlerts, alertsViewOf, h]

/-- Claim C4 (witness): the theorem applied at a concrete outcome in which
only `/api/stats` fails — the stat cards keep their previous texts and
the transaction table and alert list are still filled from their own
successful fetches. -/
theorem refreshAllData_fault_tolerance_witness :
    (refreshAllData statsFailOutcomes blankUI).statTotal = blankUI.statTotal
  ∧ (refreshAllData statsFailOutcomes blankUI).allBody = allBodyOf statsFailOutcomes.transactions
  ∧ (refreshAllData statsFailOutcomes blankUI).alertsList = alertsViewOf statsFailOutcomes.alertsTx :=
  ⟨((refreshAllData_fault_tolerance statsFailOutcomes blankUI).1
      "Internal Server Error" rfl).2.1,
   (refreshAllData_fault_tolerance statsFailOutcomes blankUI).2.1,
   (refreshAllData_fault_tolerance statsFailOutcomes blankUI).2.2⟩

/-- Claim C10 (witness): the theorem applied to a concrete transaction
whose `is_fraud` is the boolean `true`. -/
theorem truthy_fraud_divergence_witness :
    (txRow boolFraudTx).statusBadge = "Fraud"
  ∧ (loadAlertsRender [boolFraudTx]).2 = .noFraud :=
  ⟨(truthy_fraud_divergence boolFraudTx (by decide) (by decide)).1,
   (truthy_fraud_divergence boolFraudTx (by decide) (by decide)).2.2.2.2⟩

/-! ## Widget lifecycle lemmas (towards C5) -/

theorem slotRef_mem_live (st : ChartSys) (h : WF st) {id : Nat}
    (hs : st.slotRef id) : id ∈ st.live :=
  (h.1 id).mpr (Or.inl hs)

theorem report_mem_live (st : ChartSys) (h : WF st) {id : Nat}
    (hr : st.reportChart = some id) : id ∈ st.live :=
  (h.1 id).mpr (Or.inr hr)

theorem live_lt_nextId (st : ChartSys) (h : WF st) {id : Nat}
    (hm : id ∈ st.live) : id < st.nextId :=
  h.2.2.2.2 id hm

theorem step_renderFailed_eq (st : ChartSys) : st.step .renderFailed = st := rfl

theorem step_init_skip (st : ChartSys) (name : String) :
    st.step (.init name false) = st := rfl

theorem step_close_none (st : ChartSys) (hr : st.reportChart = none) :
    st.step .close = st := by
  simp [ChartSys.step, hr]

theorem step_close_some (st : ChartSys) {old : Nat} (hr : st.reportChart = some old) :
    st.step .close =
      { slots := st.slots, reportChart := none, nextId := st.nextId,
        live := st.live.erase old } := by
  simp [ChartSys.step, hr, ChartSys.destroyId]

theorem step_render_some (st : ChartSys) {old : Nat} (hr : st.reportChart = some old) :
    st.step .render =
      { slots := st.slots, reportChart := some st.nextId, nextId := st.nextId + 1,
        live := st.nextId :: st.live.erase old } := by
  simp [ChartSys.step, hr, ChartSys.destroyId]

theorem step_render_none (st : ChartSys) (hr : st.reportChart = none) :
    st.step .render =
      { slots := st.slots, reportChart := some st.nextId, nextId := st.nextId + 1,
        live := st.nextId :: st.live } := by
  simp [ChartSys.step, hr]

theorem step_init_absent (st : ChartSys) (name : String)
    (hl : lookupA st.slots name = none) :
    st.step (.init name true) =
      { slots := (name, st.nextId) :: st.slots, reportChart := st.reportChart,
        nextId := st.nextId + 1, live := st.nextId :: st.live } := by
  simp [ChartSys.step, hl, ChartSys.newInSlot, ChartSys.destroyId]

theorem step_init_present (st : ChartSys) (name : String) {old : Nat}
    (hl : lookupA st.slots name = some old) :
    st.step (.init name true) =
      { slots := setA st.slots name st.nextId, reportChart := st.reportChart,
        nextId := st.nextId + 1, live := st.nextId :: st.live.erase old } := by
  simp [ChartSys.step, hl, ChartSys.newInSlot, ChartSys.destroyId]

/-- Every lifecycle operation preserves well-formedness: in particular
each (re)initialization and each report render/close destroys the
instance it replaces, leaking no live widget. -/
theorem WF_step (st : ChartSys) (op : ChartOp) (h : WF st) : WF (st.step op) := by
  obtain ⟨h1, h2, h3, h4, h5⟩ := h
  cases op with
  | renderFailed => exact ⟨h1, h2, h3, h4, h5⟩
  | close =>
    cases hr : st.reportChart with
    | none =>
      rw [step_close_none st hr]
      exact ⟨h1, h2, h3, h4, h5⟩
    | some old =>
      rw [step_close_some st hr]
      refine ⟨?_, h2.erase old, h3, ?_, ?_⟩
      · intro id
        constructor
        · intro hm
          rw [h2.mem_erase_iff] at hm
          obtain ⟨hne, hmem⟩ := hm
          rcases (h1 id).mp hmem with hs | hrep
          · exact Or.inl hs
          · rw [hr] at hrep
            exact absurd (Option.some.inj hrep).symm hne
        · rintro (⟨n, hn⟩ | hnone)
          · rw [h2.mem_erase_iff]
            refine ⟨?_, (h1 id).mpr (Or.inl ⟨n, hn⟩)⟩
            intro heq
            subst heq
            exact h4 id hr n hn
          · exact Option.noConfusion hnone
      · intro id hrep
        exact Option.noConfusion hrep
      · intro id hm
        exact h5 id (List.mem_of_mem_erase hm)
  | render =>
    cases hr : st.reportChart with
    | some old =>
      rw [step_render_some st hr]
      refine ⟨?_, ?_, h3, ?_, ?_⟩
      · intro id
        simp only [List.mem_cons]
        constructor
        · rintro (rfl | hm)
          · exact Or.inr rfl
          · rw [h2.mem_erase_iff] at hm
            obtain ⟨hne, hmem⟩ := hm
            rcases (h1 id).mp hmem with hs | hrep
            · exact Or.inl hs
            · rw [hr] at hrep
              exact absurd (Option.some.inj hrep).symm hne
        · rintro (⟨n, hn⟩ | hrep)
          · right
            rw [h2.mem_erase_iff]
            refine ⟨?_, (h1 id).mpr (Or.inl ⟨n, hn⟩)⟩
            intro heq
            subst heq
            exact h4 id hr n hn
          · exact Or.inl (Option.some.inj hrep).symm
      · refine List.nodup_cons.mpr ⟨?_, h2.erase old⟩
        intro hm
        exact absurd (h5 _ (List.mem_of_mem_erase hm)) (lt_irrefl _)
      · intro id hrep n hn
        have hid : st.nextId = id := Option.some.inj hrep
        have hlt : id < st.nextId := h5 _ ((h1 id).mpr (Or.inl ⟨n, hn⟩))
        rw [← hid] at hlt
        exact absurd hlt (lt_irrefl _)
      · intro id hm
        rcases List.mem_cons.mp hm with rfl | hm'
        · exact Nat.lt_succ_self _
        · exact Nat.lt_succ_of_lt (h5 _ (List.mem_of_mem_erase hm'))
    | none =>
      rw [step_render_none st hr]
      refine ⟨?_, ?_, h3, ?_, ?_⟩
      · intro id
        simp only [List.mem_cons]
        constructor
        · rintro (rfl | hm)
          · exact Or.inr rfl
          · rcases (h1 id).mp hm with hs | hrep
            · exact Or.inl hs
            · rw [hr] at hrep
              exact Option.noConfusion hrep
        · rintro (hs | hrep)
          · exact Or.inr ((h1 id).mpr (Or.inl hs))
          · exact Or.inl (Option.some.inj hrep).symm
      · exact List.nodup_cons.mpr ⟨fun hm => absurd (h5 _ hm) (lt_irrefl _), h2⟩
      · intro id hrep n hn
        have hid : st.nextId = id := Option.some.inj hrep
        have hlt : id < st.nextId := h5 _ ((h1 id).mpr (Or.inl ⟨n, hn⟩))
        rw [← hid] at hlt
        exact absurd hlt (lt_irrefl _)
      · intro id hm
        rcases List.mem_cons.mp hm with rfl | hm'
        · exact Nat.lt_succ_self _
        · exact Nat.lt_succ_of_lt (h5 _ hm')
  | init name canvasPresent =>
    cases canvasPresent with
    | false => exact ⟨h1, h2, h3, h4, h5⟩
    | true =>
      cases hl : lookupA st.slots name with
      | none =>
        rw [step_init_absent st name hl]
        refine ⟨?_, ?_, ?_, ?_, ?_⟩
        · intro id
          simp only [List.mem_cons]
          constructor
          · rintro (rfl | hm)
            · exact Or.inl ⟨name, by simp [lookupA]⟩
            · rcases (h1 id).mp hm with ⟨n, hn⟩ | hrep
              · left
                refine ⟨n, ?_⟩
                have hne : ¬ name = n := by
                  intro he
                  subst he
                  rw [hl] at hn
                  exact Option.noConfusion hn
                simp only [lookupA, if_neg hne]
                exact hn
              · exact Or.inr hrep
          · rintro (⟨n, hn⟩ | hrep)
            · simp only [lookupA] at hn
              by_cases hne : name = n
              · rw [if_pos hne] at hn
                exact Or.inl (Option.some.inj hn).symm
              · rw [if_neg hne] at hn
                exact Or.inr ((h1 id).mpr (Or.inl ⟨n, hn⟩))
            · exact Or.inr ((h1 id).mpr (Or.inr hrep))
        · exact List.nodup_cons.mpr ⟨fun hm => absurd (h5 _ hm) (lt_irrefl _), h2⟩
        · intro n m id hn hm
          simp only [lookupA] at hn hm
          by_cases h1n : name = n <;> by_cases h1m : name = m
          · rw [← h1n, ← h1m]
          · rw [if_pos h1n] at hn
            rw [if_neg h1m] at hm
            have hid : st.nextId = id := Option.some.inj hn
            have hlt : id < st.nextId := h5 _ ((h1 id).mpr (Or.inl ⟨m, hm⟩))
            rw [← hid] at hlt
            exact absurd hlt (lt_irrefl _)
          · rw [if_neg h1n] at hn
            rw [if_pos h1m] at hm
            have hid : st.nextId = id := Option.some.inj hm
            have hlt : id < st.nextId := h5 _ ((h1 id).mpr (Or.inl ⟨n, hn⟩))
            rw [← hid] at hlt
            exact absurd hlt (lt_irrefl _)
          · rw [if_neg h1n] at hn
            rw [if_neg h1m] at hm
            exact h3 n m id hn hm
        · intro id hrep n
          simp only [lookupA]
          by_cases hne : name = n
          · rw [if_pos hne]
            intro heq
            have hid : st.nextId = id := Option.some.inj heq
            have hlt : id < st.nextId := h5 _ ((h1 id).mpr (Or.inr hrep))
            rw [← hid] at hlt
            exact absurd hlt (lt_irrefl _)
          · rw [if_neg hne]
            exact h4 id hrep n
        · intro id hm
          rcases List.mem_cons.mp hm with rfl | hm'
          · exact Nat.lt_succ_self _
          · exact Nat.lt_succ_of_lt (h5 _ hm')
      | some old =>
        rw [step_init_present st name hl]
        have hlook : ∀ n, lookupA (setA st.slots name st.nextId) n =
            if n = name then some st.nextId else lookupA st.slots n := by
          intro n
          rw [lookupA_setA]
          by_cases hne : n = name
          · subst hne
            simp [hl]
          · simp [hne]
        refine ⟨?_, ?_, ?_, ?_, ?_⟩
        · intro id
          simp only [List.mem_cons]
          constructor
          · rintro (rfl | hm)
            · refine Or.inl ⟨name, ?_⟩
              rw [hlook]
              simp
            · rw [h2.mem_erase_iff] at hm
              obtain ⟨hne, hmem⟩ := hm
              rcases (h1 id).mp hmem with ⟨n, hn⟩ | hrep
              · left
                refine ⟨n, ?_⟩
                rw [hlook]
                have hnname : ¬ n = name := by
                  intro he
                  subst he
                  rw [hl] at hn
                  exact hne (Option.some.inj hn).symm
                rw [if_neg hnname]
                exact hn
              · exact Or.inr hrep
          · rintro (⟨n, hn⟩ | hrep)
            · rw [hlook] at hn
              by_cases hne : n = name
              · rw [if_pos hne] at hn
                exact Or.inl (Option.some.inj hn).symm
              · rw [if_neg hne] at hn
                right
                rw [h2.mem_erase_iff]
                refine ⟨?_, (h1 id).mpr (Or.inl ⟨n, hn⟩)⟩
                intro he
                subst he
                exact hne (h3 n name id hn hl)
            · right
              rw [h2.mem_erase_iff]
              refine ⟨?_, (h1 id).mpr (Or.inr hrep)⟩
              intro he
              subst he
              exact h4 id hrep name hl
        · refine List.nodup_cons.mpr ⟨?_, h2.erase old⟩
          intro hm
          exact absurd (h5 _ (List.mem_of_mem_erase hm)) (lt_irrefl _)
        · intro n m id hn hm
          rw [hlook] at hn hm
          by_cases h1n : n = name <;> by_cases h1m : m = name
          · rw [h1n, h1m]
          · rw [if_pos h1n] at hn
            rw [if_neg h1m] at hm
            have hid : st.nextId = id := Option.some.inj hn
            have hlt : id < st.nextId := h5 _ ((h1 id).mpr (Or.inl ⟨m, hm⟩))
            rw [← hid] at hlt
            exact absurd hlt (lt_irrefl _)
          · rw [if_neg h1n] at hn
            rw [if_pos h1m] at hm
            have hid : st.nextId = id := Option.some.inj hm
            have hlt : id < st.nextId := h5 _ ((h1 id).mpr (Or.inl ⟨n, hn⟩))
            rw [← hid] at hlt
            exact absurd hlt (lt_irrefl _)
          · rw [if_neg h1n] at hn
            rw [if_neg h1m] at hm
            exact h3 n m id hn hm
        · intro id hrep n
          rw [hlook]
          by_cases hne : n = name
          · rw [if_pos hne]
            intro heq
            have hid : st.nextId = id := Option.some.inj heq
            have hlt : id < st.nextId := h5 _ ((h1 id).mpr (Or.inr hrep))
            rw [← hid] at hlt
            exact absurd hlt (lt_irrefl _)
          · rw [if_neg hne]
            exact h4 id hrep n
        · intro id hm
          rcases List.mem_cons.mp hm with rfl | hm'
          · exact Nat.lt_succ_self _
          · exact Nat.lt_succ_of_lt (h5 _ (List.mem_of_mem_erase hm'))

theorem WF_run (st : ChartSys) (ops : List ChartOp) (h : WF st) : WF (st.run ops) := by
  induction ops generalizing st with
  | nil => exact h
  | cons op rest ih => exact ih (st.step op) (WF_step st op h)

theorem step_render_facts (st : ChartSys) :
    (st.step .render).reportChart = some st.nextId
  ∧ (st.step .render).nextId = st.nextId + 1
  ∧ (st.step .render).slots = st.slots := by
  cases hr : st.reportChart with
  | some old =>
    rw [step_render_some st hr]
    exact ⟨rfl, rfl, rfl⟩
  | none =>
    rw [step_render_none st hr]
    exact ⟨rfl, rfl, rfl⟩

theorem wf_chartSysInit : WF chartSysInit := by
  refine ⟨?_, ?_, ?_, ?_, ?_⟩ <;> simp [chartSysInit, ChartSys.slotRef, lookupA]

/-- Claim C5: from any well-formed lifecycle state, every sequence of
chart initializations, report generations and modal closes keeps the
state well formed — the live instances are exactly those referenced by a
registry slot or by `reportChart`, and references are injective, so at
most one live widget instance exists per chart name and at most one live
report widget exists; moreover every (re)initialization destroys the
prior instance under the same name, every render or close destroys the
previous report instance, and after generating two reports in succession
exactly one report widget (one live instance beyond the registry slots)
remains. -/
theorem chart_single_instance (st : ChartSys) (ops : List ChartOp) (h : WF st) :
    WF (st.run ops)
  ∧ (∀ name old, lookupA st.slots name = some old →
      old ∉ (st.step (.init name true)).live)
  ∧ (∀ old, st.reportChart = some old →
      old ∉ (st.step .render).live ∧ old ∉ (st.step .close).live)
  ∧ (∃ r, (st.run [.render, .render]).reportChart = some r
      ∧ r ∈ (st.run [.render, .render]).live
      ∧ ¬ (st.run [.render, .render]).slotRef r
      ∧ ∀ id ∈ (st.run [.render, .render]).live,
          id = r ∨ (st.run [.render, .render]).slotRef id) := by
  refine ⟨WF_run st ops h, ?_, ?_, ?_⟩
  · intro name old hl
    rw [step_init_present st name hl]
    intro hm
    rcases List.mem_cons.mp hm with he | hm'
    · have hmem : old ∈ st.live := slotRef_mem_live st h ⟨name, hl⟩
      rw [he] at hmem
      exact absurd (h.2.2.2.2 _ hmem) (lt_irrefl _)
    · exact h.2.1.not_mem_erase hm'
  · intro old hr
    constructor
    · rw [step_render_some st hr]
      intro hm
      rcases List.mem_cons.mp hm with he | hm'
      · have hmem : old ∈ st.live := report_mem_live st h hr
        rw [he] at hmem
        exact absurd (h.2.2.2.2 _ hmem) (lt_irrefl _)
      · exact h.2.1.not_mem_erase hm'
    · rw [step_close_some st hr]
      exact h.2.1.not_mem_erase
  · have h1w : WF (st.step .render) := WF_step st .render h
    have h2w : WF ((st.step .render).step .render) := WF_step _ .render h1w
    have hfacts := step_render_facts (st.step .render)
    refine ⟨(st.step .render).nextId, hfacts.1, ?_, ?_, ?_⟩
    · exact report_mem_live _ h2w hfacts.1
    · rintro ⟨n, hn⟩
      have hrun : st.run [.render, .render] = (st.step .render).step .render := rfl
      rw [hrun, hfacts.2.2, (step_render_facts st).2.2] at hn
      have hrlt : (st.step .render).nextId < st.nextId :=
        h.2.2.2.2 _ (slotRef_mem_live st h ⟨n, hn⟩)
      rw [(step_render_facts st).2.1] at hrlt
      omega
    · intro id hm
      rcases (h2w.1 id).mp hm with hs | hrep
      · exact Or.inr hs
      · rw [hfacts.1] at hrep
        exact Or.inl (Option.some.inj hrep).symm

/-- Claim C5 (witness): the theorem applied to the initial lifecycle state
(which is well formed): two report generations in succession leave
exactly one live report widget. -/
theorem chart_single_instance_witness :
    ∃ r, (chartSysInit.run [.render, .render]).reportChart = some r
      ∧ r ∈ (chartSysInit.run [.render, .render]).live
      ∧ ¬ (chartSysInit.run [.render, .render]).slotRef r
      ∧ ∀ id ∈ (chartSysInit.run [.render, .render]).live,
          id = r ∨ (chartSysInit.run [.render, .render]).slotRef id :=
  (chart_single_instance chartSysInit [] wf_chartSysInit).2.2.2

end FraudDash
